import Mathlib

/-!
Shallow embedding of the ai_village WSAP system (Nexus hub, Avatar
subsystem, Bridge command queue, Starbound adapter) and verification of
the specification's claims against it.

Python `dict`s are modelled as insertion-ordered association lists with
unique keys (`d[k] = v` replaces in place when the key is present and
appends otherwise, matching CPython 3.7+ semantics); Python `float`s are
modelled as rationals; Python `int`s as `Int`; `datetime.now()` strings
are threaded as explicit `now : String` arguments.
-/

namespace AiVillage

/-- Python dict lookup `d.get(k)`: first (unique) binding of the key. -/
def dictGet {κ α : Type} [DecidableEq κ] (m : List (κ × α)) (k : κ) : Option α :=
  match m with
  | [] => none
  | (k2, v) :: rest => if k2 = k then some v else dictGet rest k

/-- Python membership test `k in d`. -/
def dictMem {κ α : Type} [DecidableEq κ] (m : List (κ × α)) (k : κ) : Bool :=
  (dictGet m k).isSome

/-- Python assignment `d[k] = v`: replace in place if present, else append. -/
def dictSet {κ α : Type} [DecidableEq κ] (m : List (κ × α)) (k : κ) (v : α) :
    List (κ × α) :=
  match m with
  | [] => [(k, v)]
  | (k2, v2) :: rest => if k2 = k then (k, v) :: rest else (k2, v2) :: dictSet rest k v

/-- Python `del d[k]` / `d.pop(k, default)` state effect: remove the binding
of the key (no-op when absent; dict keys are unique, so removing every
occurrence coincides with removing the one binding). -/
def dictDel {κ α : Type} [DecidableEq κ] (m : List (κ × α)) (k : κ) : List (κ × α) :=
  match m with
  | [] => []
  | (k2, v2) :: rest => if k2 = k then dictDel rest k else (k2, v2) :: dictDel rest k

@[simp] theorem dictGet_nil {κ α : Type} [DecidableEq κ] (k : κ) :
    dictGet ([] : List (κ × α)) k = none := rfl

@[simp] theorem dictGet_cons {κ α : Type} [DecidableEq κ] (k2 : κ) (v : α)
    (rest : List (κ × α)) (k : κ) :
    dictGet ((k2, v) :: rest) k = if k2 = k then some v else dictGet rest k := rfl

theorem dictGet_dictSet_self {κ α : Type} [DecidableEq κ] (m : List (κ × α))
    (k : κ) (v : α) : dictGet (dictSet m k v) k = some v := by
  induction m with
  | nil => simp [dictSet, dictGet]
  | cons p rest ih =>
    obtain ⟨k2, v2⟩ := p
    by_cases h : k2 = k
    · simp [dictSet, dictGet, h]
    · simp [dictSet, dictGet, h, ih]

theorem dictGet_dictSet_ne {κ α : Type} [DecidableEq κ] (m : List (κ × α))
    (k k2 : κ) (v : α) (h : k ≠ k2) :
    dictGet (dictSet m k v) k2 = dictGet m k2 := by
  induction m with
  | nil => simp [dictSet, dictGet, h]
  | cons p rest ih =>
    obtain ⟨k3, v3⟩ := p
    by_cases h3 : k3 = k
    · subst h3
      simp [dictSet, dictGet, h]
    · simp [dictSet, dictGet, h3, ih]

theorem dictGet_dictDel_self {κ α : Type} [DecidableEq κ] (m : List (κ × α))
    (k : κ) : dictGet (dictDel m k) k = none := by
  induction m with
  | nil => simp [dictDel]
  | cons p rest ih =>
    obtain ⟨k2, v2⟩ := p
    by_cases h : k2 = k
    · simp [dictDel, h, ih]
    · simp [dictDel, dictGet, h, ih]

theorem dictGet_dictDel_ne {κ α : Type} [DecidableEq κ] (m : List (κ × α))
    (k k2 : κ) (h : k ≠ k2) :
    dictGet (dictDel m k) k2 = dictGet m k2 := by
  induction m with
  | nil => simp [dictDel]
  | cons p rest ih =>
    obtain ⟨k3, v3⟩ := p
    by_cases h3 : k3 = k
    · have hk32 : ¬ k3 = k2 := fun hh => h (h3.symm.trans hh)
      simp [dictDel, h3, dictGet, hk32, ih, h]
    · simp [dictDel, h3, dictGet, ih]

/-! ## Nexus core data model (src/wsap/nexus/core.py) -/

/-- GameStatus enum: current availability of a game. -/
inductive GameStatus where
  | available
  | busy
  | offline
  | maintenance
deriving DecidableEq

/-- Achievement dataclass: a cross-game achievement. -/
structure Achievement where
  id : String
  name : String
  description : String
  game_origin : String
  timestamp : String
  rarity : String
deriving DecidableEq

/-- PortableItem dataclass. The `properties` and `equivalence_hints`
`dict[str, Any]` fields are omitted: no operation modelled here reads them. -/
structure PortableItem where
  category : String
  tier : ℤ
  origin : String
deriving DecidableEq

/-- Standard skill domains that transfer between games (SKILL_DOMAINS). -/
def SKILL_DOMAINS : List String :=
  ["exploration", "resource_management", "combat", "crafting", "survival",
   "social", "puzzle_solving", "planning", "adaptation"]

/-- AgentIdentity dataclass: persistent identity that follows an agent
across games. Skill levels (Python floats) are modelled as rationals. -/
structure AgentIdentity where
  agent_id : String
  name : String
  created_at : String
  total_steps : ℤ
  games_visited : List String
  achievements : List Achievement
  skills : List (String × ℚ)
  carried_items : List PortableItem
  carried_currency : List (String × ℤ)
  core_memories : List String
  strategies : List String
  meta_goals : List String
deriving DecidableEq

/-- The `__post_init__` skill initialization: every standard domain absent
from the skills dict is set to 0.0. -/
def initSkills (skills : List (String × ℚ)) : List (String × ℚ) :=
  SKILL_DOMAINS.foldl
    (fun sk domain => if dictMem sk domain then sk else dictSet sk domain 0) skills

/-- Construct `AgentIdentity(agent_id=..., name=...)` with dataclass defaults
and `__post_init__` applied; `now` stands for `datetime.now().isoformat()`. -/
def mkAgentIdentity (agent_id name now : String) : AgentIdentity :=
  { agent_id := agent_id
    name := name
    created_at := now
    total_steps := 0
    games_visited := []
    achievements := []
    skills := initSkills []
    carried_items := []
    carried_currency := []
    core_memories := []
    strategies := []
    meta_goals := [] }

/-- AgentIdentity.add_game_visit. -/
def AgentIdentity.add_game_visit (i : AgentIdentity) (game_id : String) : AgentIdentity :=
  if game_id ∈ i.games_visited then i
  else { i with games_visited := i.games_visited ++ [game_id] }

/-- AgentIdentity.update_skill: missing domain is first created at 0.0, then
the delta is applied and the result clamped via `min(1.0, max(0.0, level + delta))`. -/
def AgentIdentity.update_skill (i : AgentIdentity) (domain : String) (delta : ℚ) :
    AgentIdentity :=
  let skills := if dictMem i.skills domain then i.skills else dictSet i.skills domain 0
  let current := (dictGet skills domain).getD 0
  { i with skills := dictSet skills domain (min 1 (max 0 (current + delta))) }

/-- GameInfo dataclass. Static capability fields (`dimensions`, `multiplayer`,
`persistent_world`, `wsap_version`, `transit_compatible`) are omitted: no
operation modelled here reads or writes them. `active_agents` is a Python int. -/
structure GameInfo where
  id : String
  name : String
  description : String
  status : GameStatus
  genre : List String
  skill_domains : List String
  active_agents : ℤ
  bridge_url : Option String
deriving DecidableEq

/-- TransitPackage dataclass: data that travels with an agent between games. -/
structure TransitPackage where
  agent_id : String
  agent_name : String
  total_steps : ℤ
  games_visited : List String
  achievements : List Achievement
  skills : List (String × ℚ)
  carried_items : List PortableItem
  carried_currency : List (String × ℤ)
  core_memories : List String
  strategies : List String
  origin_game : String
  exit_reason : String
  timestamp : String
deriving DecidableEq

/-- EntryPackage dataclass (the fields read by `transit_in`; the unused
`transit_package`, `max_steps` and `exit_conditions` fields are omitted). -/
structure EntryPackage where
  agent_id : String
  game_id : String
  spawn_preference : String
  difficulty : String
  goals : List String
deriving DecidableEq

/-- Value stored in a bonuses dict: the bonus tables produce Python ints,
bools and floats. -/
inductive BonusValue where
  | intVal (z : ℤ)
  | boolVal (b : Bool)
  | ratVal (q : ℚ)
deriving DecidableEq

/-- Python `int(q)` on a float: truncation toward zero. -/
def pyInt (q : ℚ) : ℤ :=
  if 0 ≤ q then Int.floor q else Int.ceil q

/-- Session record created by `transit_in` and stored in `self.sessions`. -/
structure Session where
  agent_id : String
  game_id : String
  started_at : String
  goals : List String
  bonuses : List (String × BonusValue)
deriving DecidableEq

/-! ## NexusServer operations (src/wsap/nexus/server.py) -/

/-- Mutable state of a NexusServer: registered games, persistent agent
identities, active sessions (agent_id to game_id) and session data. -/
structure NexusState where
  games : List (String × GameInfo)
  agents : List (String × AgentIdentity)
  active_sessions : List (String × String)
  sessions : List (String × Session)
deriving DecidableEq

/-- NexusServer.register_agent: return the existing identity when the id is
already registered, otherwise create and store a fresh one. -/
def NexusServer.register_agent (s : NexusState) (agent_id name now : String) :
    NexusState × AgentIdentity :=
  match dictGet s.agents agent_id with
  | some identity => (s, identity)
  | none =>
    let identity := mkAgentIdentity agent_id name now
    ({ s with agents := dictSet s.agents agent_id identity }, identity)

/-- NexusServer._calculate_bonuses game-specific bonus tables, in dict literal
order: skill domain to (bonus name, transform of the skill level). -/
def bonusMaps : List (String × List (String × String × (ℚ → BonusValue))) :=
  [("crafter",
    [("resource_management", ("inventory_bonus", fun s => BonusValue.intVal (pyInt (s * 3)))),
     ("survival", ("health_bonus", fun s => BonusValue.intVal (pyInt (s * 2)))),
     ("crafting", ("recipe_hint", fun s => BonusValue.boolVal (decide (s > 3/10))))]),
   ("starbound",
    [("exploration", ("scanner_range", fun s => BonusValue.intVal (1 + pyInt (s * 5)))),
     ("combat", ("weapon_tier", fun s => BonusValue.intVal (1 + pyInt (s * 2)))),
     ("social", ("price_modifier", fun s => BonusValue.ratVal (1 - s * (2/10))))])]

/-- NexusServer._calculate_bonuses: a bonus is emitted for each table entry
whose skill domain is present in the agent's skills with level above 0.1. -/
def NexusServer.calculate_bonuses (skills : List (String × ℚ)) (game_id : String) :
    List (String × BonusValue) :=
  match dictGet bonusMaps game_id with
  | none => []
  | some table =>
    table.foldl
      (fun bonuses entry =>
        match dictGet skills entry.1 with
        | some level =>
          if level > 1/10 then dictSet bonuses entry.2.1 (entry.2.2 level) else bonuses
        | none => bonuses)
      []

/-- Return value of `transit_in`: either `{"success": False, "error": ...}`
or `{"success": True, "session_id": ..., "bridge_url": ..., "bonuses": ...}`. -/
inductive TransitInResult where
  | failure (error : String)
  | success (session_id : String) (bridge_url : Option String)
      (bonuses : List (String × BonusValue))
deriving DecidableEq

/-- NexusServer.transit_in: validate game and agent, compute bonuses, create
a session, record the active session and increment the game's agent count. -/
def NexusServer.transit_in (s : NexusState) (entry : EntryPackage) (now : String) :
    NexusState × TransitInResult :=
  match dictGet s.games entry.game_id with
  | none => (s, TransitInResult.failure ("Unknown game: " ++ entry.game_id))
  | some game =>
    if game.status ≠ GameStatus.available then
      (s, TransitInResult.failure "Game not available")
    else
      match dictGet s.agents entry.agent_id with
      | none => (s, TransitInResult.failure ("Unknown agent: " ++ entry.agent_id))
      | some identity =>
        let bonuses := NexusServer.calculate_bonuses identity.skills entry.game_id
        let session_id := "sess_" ++ entry.agent_id ++ "_" ++ entry.game_id ++ "_" ++ now
        let session : Session :=
          { agent_id := entry.agent_id
            game_id := entry.game_id
            started_at := now
            goals := entry.goals
            bonuses := bonuses }
        ({ s with
            sessions := dictSet s.sessions session_id session
            active_sessions := dictSet s.active_sessions entry.agent_id entry.game_id
            games := dictSet s.games entry.game_id
              { game with active_agents := game.active_agents + 1 } },
         TransitInResult.success session_id game.bridge_url bonuses)

/-- NexusServer.transit_out: raise `ValueError` (modelled as `Except.error`)
for an unknown agent; otherwise mark the game visited, snapshot the identity
into a TransitPackage, clear the active session and decrement the game's
agent count, floored at 0. -/
def NexusServer.transit_out (s : NexusState) (agent_id game_id reason now : String) :
    Except String (NexusState × TransitPackage) :=
  match dictGet s.agents agent_id with
  | none => Except.error ("Unknown agent: " ++ agent_id)
  | some identity =>
    let identity := identity.add_game_visit game_id
    let package : TransitPackage :=
      { agent_id := agent_id
        agent_name := identity.name
        total_steps := identity.total_steps
        games_visited := identity.games_visited
        achievements := identity.achievements
        skills := identity.skills
        carried_items := identity.carried_items
        carried_currency := identity.carried_currency
        core_memories := identity.core_memories
        strategies := identity.strategies
        origin_game := game_id
        exit_reason := reason
        timestamp := now }
    let active_sessions :=
      if dictMem s.active_sessions agent_id then dictDel s.active_sessions agent_id
      else s.active_sessions
    let games :=
      match dictGet s.games game_id with
      | some game =>
        dictSet s.games game_id { game with active_agents := max 0 (game.active_agents - 1) }
      | none => s.games
    (Except.ok
      ({ s with
          agents := dictSet s.agents agent_id identity
          active_sessions := active_sessions
          games := games },
       package))

/-- NexusServer.update_agent_stats: silently return for an unknown agent;
otherwise accumulate steps, apply skill deltas via `update_skill`, and append
achievements tagged with the agent's current game (or "unknown"). The
`reward` argument is accepted and ignored, as in the source. -/
def NexusServer.update_agent_stats (s : NexusState) (agent_id : String)
    (steps : ℤ) (reward : ℚ) (achievements : Option (List String))
    (skill_updates : Option (List (String × ℚ))) (now : String) : NexusState :=
  match dictGet s.agents agent_id with
  | none => s
  | some identity =>
    let identity := { identity with total_steps := identity.total_steps + steps }
    let identity :=
      match skill_updates with
      | none => identity
      | some updates =>
        updates.foldl (fun i u => i.update_skill u.1 u.2) identity
    let identity :=
      match achievements with
      | none => identity
      | some names =>
        let game_id := (dictGet s.active_sessions agent_id).getD "unknown"
        { identity with
            achievements := identity.achievements ++ names.map (fun n =>
              { id := game_id ++ ":" ++ n
                name := n
                description := n
                game_origin := game_id
                timestamp := now
                rarity := "common" }) }
    { s with agents := dictSet s.agents agent_id identity }

/-! ## Game suggestions (NexusServer._suggest_games) -/

/-- One entry of the suggestion list built by `_suggest_games`. -/
structure Suggestion where
  game_id : String
  game_name : String
  score : ℚ
  reasons : List String
deriving DecidableEq

/-- Round half to even, as Python's float formatting does. -/
def roundHalfEven (q : ℚ) : ℤ :=
  let f := q.floor
  let r := q - f
  if r < 1/2 then f
  else if 1/2 < r then f + 1
  else if f % 2 = 0 then f else f + 1

/-- Python `f"{level:.0%}"`: percentage with zero decimals. -/
def fmtPercent (q : ℚ) : String :=
  toString (roundHalfEven (q * 100)) ++ "%"

/-- Reason string recorded for a contributing skill domain. -/
def skillReason (domain : String) (level : ℚ) : String :=
  "Your " ++ domain ++ " skill (" ++ fmtPercent level ++ ") would help"

/-- Scoring loop body of `_suggest_games` for one game: sum the agent's
levels over the game's skill domains where the level exceeds 0.3, recording
one reason per contributing domain, then add 0.5 with its reason when the
game has not been visited. -/
def scoreGame (identity : AgentIdentity) (game : GameInfo) : ℚ × List String :=
  let sr := game.skill_domains.foldl
    (fun sr domain =>
      match dictGet identity.skills domain with
      | some level =>
        if level > 3/10 then (sr.1 + level, sr.2 ++ [skillReason domain level]) else sr
      | none => sr)
    ((0 : ℚ), ([] : List String))
  if game.id ∈ identity.games_visited then sr
  else (sr.1 + 1/2, sr.2 ++ ["You haven\x27t tried this game yet"])

/-- Stable insertion into a descending-sorted list: an element goes before
the first entry with a smaller-or-equal score, preserving the original order
of equal scores (Python `list.sort` is stable). -/
def insertDescBy (x : Suggestion) : List Suggestion → List Suggestion
  | [] => [x]
  | y :: ys => if y.score ≤ x.score then x :: y :: ys else y :: insertDescBy x ys

/-- Stable sort by score, descending: models
`suggestions.sort(key=lambda x: x["score"], reverse=True)`. -/
def sortDescBy : List Suggestion → List Suggestion
  | [] => []
  | x :: xs => insertDescBy x (sortDescBy xs)

/-- One iteration of the `_suggest_games` loop: skip an unavailable game
(`continue`), score an available one and append a suggestion entry only when
the score is strictly positive. -/
def suggestLoopBody (identity : AgentIdentity) (acc : List Suggestion)
    (entry : String × GameInfo) : List Suggestion :=
  let game := entry.2
  if game.status ≠ GameStatus.available then acc
  else
    let sr := scoreGame identity game
    if sr.1 > 0 then
      acc ++ [{ game_id := game.id, game_name := game.name,
                score := sr.1, reasons := sr.2 }]
    else acc

/-- NexusServer._suggest_games: iterate the registered games in insertion
order, skip unavailable ones, score each, append an entry only when the
score is positive, then sort by score descending and return the top 3. -/
def NexusServer.suggest_games (games : List (String × GameInfo))
    (identity : AgentIdentity) : List Suggestion :=
  (sortDescBy (games.foldl (suggestLoopBody identity) [])).take 3

/-- Suggestion algorithm exactly as claim C8 words it: every available game
is scored and ranked (no positivity filter). Written from the claim, not the
source, to be compared against `NexusServer.suggest_games`. -/
def claimSuggestGames (games : List (String × GameInfo))
    (identity : AgentIdentity) : List Suggestion :=
  let scored := ((games.map (fun e => e.2)).filter
      (fun g => g.status = GameStatus.available)).map
    (fun g => Suggestion.mk g.id g.name (scoreGame identity g).1 (scoreGame identity g).2)
  (sortDescBy scored).take 3

/-- Suggestion algorithm as amended: available games are scored as the claim
describes, but only games with a strictly positive score are kept before
sorting descending and taking the top 3. -/
def amendedSuggestGames (games : List (String × GameInfo))
    (identity : AgentIdentity) : List Suggestion :=
  let scored := ((games.map (fun e => e.2)).filter
      (fun g => g.status = GameStatus.available)).map
    (fun g => Suggestion.mk g.id g.name (scoreGame identity g).1 (scoreGame identity g).2)
  (sortDescBy (scored.filter (fun sug => sug.score > 0))).take 3

/-! ## Avatar subsystem (src/wsap/nexus/core.py) -/

/-- AvatarState enum. -/
inductive AvatarState where
  | unbound
  | bound
  | dormant
  | suspended
  | destroyed
deriving DecidableEq

/-- Avatar dataclass: an embodiment of an agent within a game. The
`appearance` dict and `respawn_point` are omitted: no modelled operation
reads them. -/
structure Avatar where
  avatar_id : String
  game_id : String
  bound_agent : Option String
  state : AvatarState
  name : String
  position : ℤ × ℤ
  health : ℚ
  max_health : ℚ
  inventory : List (String × ℤ)
  equipment : List (String × String)
  created_at : String
  last_active : String
  total_playtime : ℤ
  death_count : ℤ
deriving DecidableEq

/-- Construct `Avatar(avatar_id=..., game_id=...)` with dataclass defaults
and `__post_init__` (default name from the id prefix, created_at set). -/
def mkAvatar (avatar_id game_id now : String) : Avatar :=
  { avatar_id := avatar_id
    game_id := game_id
    bound_agent := none
    state := AvatarState.unbound
    name := "Avatar_" ++ avatar_id.take 8
    position := (0, 0)
    health := 100
    max_health := 100
    inventory := []
    equipment := []
    created_at := now
    last_active := ""
    total_playtime := 0
    death_count := 0 }

/-- Avatar.jack_in: bind an agent to this avatar. -/
def Avatar.jack_in (a : Avatar) (agent_id now : String) : Avatar :=
  { a with bound_agent := some agent_id, state := AvatarState.bound, last_active := now }

/-- Avatar.jack_out: clear the bound agent; the if/elif chain maps the three
known modes to states and leaves the state unchanged for any other mode. -/
def Avatar.jack_out (a : Avatar) (mode now : String) : Avatar :=
  { a with
      bound_agent := none
      state :=
        if mode = "dormant" then AvatarState.dormant
        else if mode = "suspend" then AvatarState.suspended
        else if mode = "despawn" then AvatarState.destroyed
        else a.state
      last_active := now }

/-- One operation in a jack_in/jack_out history. -/
inductive AvatarOp where
  | jackIn (agent_id now : String)
  | jackOut (mode now : String)
deriving DecidableEq

/-- Apply one operation to an avatar. -/
def applyAvatarOp (a : Avatar) : AvatarOp → Avatar
  | AvatarOp.jackIn agent_id now => a.jack_in agent_id now
  | AvatarOp.jackOut mode now => a.jack_out mode now

/-- Run a sequence of jack_in/jack_out operations. -/
def runAvatarOps (a : Avatar) (ops : List AvatarOp) : Avatar :=
  ops.foldl applyAvatarOp a

/-- The binding invariant of the spec: bound_agent is non-null iff the
avatar state is `bound`. -/
def boundInvariant (a : Avatar) : Prop :=
  a.bound_agent.isSome = true ↔ a.state = AvatarState.bound

instance (a : Avatar) : Decidable (boundInvariant a) := by
  unfold boundInvariant
  infer_instance

/-- A jack_out mode recognized by the if/elif chain. -/
def validMode (mode : String) : Bool :=
  mode == "dormant" || mode == "suspend" || mode == "despawn"

/-- Every jack_out in the history uses a recognized mode. -/
def validModes : List AvatarOp → Bool
  | [] => true
  | op :: rest =>
    (match op with
     | AvatarOp.jackOut mode _ => validMode mode
     | AvatarOp.jackIn _ _ => true) && validModes rest

/-! ## Bridge command queue (src/wsap/bridges/starbound_bridge_server.py)

Results are flat JSON objects; command ids (uuid4 strings in the source,
whose only used property is freshness) are modelled as naturals drawn from a
counter. A `threading.Event` is modelled by a Bool flag per registered
waiter; `event.wait(timeout)` returning `True` requires the flag to be set,
and with a finite timeout the wait always returns, so each `submit` call
completes with either the popped result or the structured timeout error —
it never raises. -/

/-- Flat JSON value, the payload vocabulary of bridge results. -/
inductive JValue where
  | jstr (s : String)
  | jnum (q : ℚ)
  | jbool (b : Bool)
  | jnull
deriving DecidableEq

/-- A result dict exchanged through the queue. -/
abbrev BridgeResult := List (String × JValue)

/-- The dict `{"error": "Timeout waiting for game response"}` returned by
the timeout branch of `submit`. -/
def timeoutError : BridgeResult :=
  [("error", JValue.jstr "Timeout waiting for game response")]

/-- The default `{"error": "Result lost"}` used by `results.pop`. -/
def resultLost : BridgeResult :=
  [("error", JValue.jstr "Result lost")]

/-- CommandQueue state: the FIFO of pending commands, the stored-results
map, the registered wait handles with their event flags, and the fresh-id
counter. -/
structure CommandQueue where
  pending_commands : List BridgeResult
  results : List (Nat × BridgeResult)
  result_events : List (Nat × Bool)
  next_id : Nat
deriving DecidableEq

/-- The freshly constructed queue. -/
def CommandQueue.empty : CommandQueue :=
  { pending_commands := [], results := [], result_events := [], next_id := 0 }

/-- First half of CommandQueue.submit: draw a fresh id, write it into the
command, register a single-fire wait handle (event unset) and enqueue. -/
def CommandQueue.submitStart (q : CommandQueue) (command : BridgeResult) :
    CommandQueue × Nat :=
  let cmd_id := q.next_id
  ({ pending_commands := q.pending_commands ++ [dictSet command "id" (JValue.jnum cmd_id)]
     results := q.results
     result_events := dictSet q.result_events cmd_id false
     next_id := q.next_id + 1 },
   cmd_id)

/-- Second half of CommandQueue.submit, after `event.wait(timeout)` returned
`signaled`. Signaled: atomically pop the stored result (default
`{"error": "Result lost"}`) and the handle. Timed out: remove the orphaned
handle if still present and return the structured timeout error. -/
def CommandQueue.submitFinish (q : CommandQueue) (cmd_id : Nat) (signaled : Bool) :
    CommandQueue × BridgeResult :=
  if signaled then
    ({ q with results := dictDel q.results cmd_id
              result_events := dictDel q.result_events cmd_id },
     (dictGet q.results cmd_id).getD resultLost)
  else
    ({ q with result_events :=
        if dictMem q.result_events cmd_id then dictDel q.result_events cmd_id
        else q.result_events },
     timeoutError)

/-- CommandQueue.get_next_command: non-blocking dequeue. -/
def CommandQueue.get_next_command (q : CommandQueue) :
    CommandQueue × Option BridgeResult :=
  match q.pending_commands with
  | [] => (q, none)
  | c :: rest => ({ q with pending_commands := rest }, some c)

/-- CommandQueue.submit_result: store the result unconditionally, and set
the waiter's event when one is registered for the id. -/
def CommandQueue.submit_result (q : CommandQueue) (cmd_id : Nat) (result : BridgeResult) :
    CommandQueue :=
  { q with
      results := dictSet q.results cmd_id result
      result_events :=
        if dictMem q.result_events cmd_id then dictSet q.result_events cmd_id true
        else q.result_events }

/-- One interleaving event against the queue: a submit call starting, a
result delivery from the poller, a submit call completing its wait, or a poll. -/
inductive QEvent where
  | start (command : BridgeResult)
  | deliver (cmd_id : Nat) (result : BridgeResult)
  | finish (cmd_id : Nat) (signaled : Bool)
  | poll
deriving DecidableEq

/-- Apply one event to the queue state. -/
def stepEvent (q : CommandQueue) : QEvent → CommandQueue
  | QEvent.start command => (q.submitStart command).1
  | QEvent.deliver cmd_id result => q.submit_result cmd_id result
  | QEvent.finish cmd_id signaled => (q.submitFinish cmd_id signaled).1
  | QEvent.poll => (q.get_next_command).1

/-- Run a list of interleaving events. -/
def runEvents (q : CommandQueue) (events : List QEvent) : CommandQueue :=
  events.foldl stepEvent q

/-- The event flag registered for an id, when a waiter exists. -/
def eventFlag (q : CommandQueue) (cmd_id : Nat) : Option Bool :=
  dictGet q.result_events cmd_id

/-- No delivery and no wait-completion event for the given id occurs in the
trace: the command is never resolved and its own wait has not yet returned. -/
def noEventsFor (cmd_id : Nat) : List QEvent → Bool
  | [] => true
  | e :: rest =>
    (match e with
     | QEvent.deliver j _ => !(j == cmd_id)
     | QEvent.finish j _ => !(j == cmd_id)
     | _ => true) && noEventsFor cmd_id rest

/-! ## Starbound adapter (src/wsap/adapters/starbound_adapter.py)

The adapter talks to the bridge over HTTP. The outcome of one HTTP request
is an explicit `Transport` argument: `ok` carries the decoded JSON payload;
`connFailure` is a `requests` ConnectionError (connection refused — and also
connect-timeout, since `requests.exceptions.ConnectTimeout` subclasses its
ConnectionError); `otherFailure` is any other exception, e.g. a read
timeout. `_request` maps `connFailure` to a raised builtin ConnectionError
and everything else to a raised RuntimeError. -/

/-- Outcome of one HTTP request attempt against the bridge. -/
inductive Transport (α : Type) where
  | ok (data : α)
  | connFailure
  | otherFailure (msg : String)

/-- Errors raised out of the adapter. -/
inductive AdapterError where
  | connectionError (msg : String)
  | runtimeError (msg : String)
deriving DecidableEq

/-- StarboundAdapter._request: re-raise a requests ConnectionError as a
builtin ConnectionError with a helpful message, and any other exception as
`RuntimeError(f"Bridge request failed: {e}")`. -/
def pyRequest {α : Type} (t : Transport α) (bridge_url : String) : Except AdapterError α :=
  match t with
  | Transport.ok data => Except.ok data
  | Transport.connFailure =>
    Except.error (AdapterError.connectionError
      ("Cannot connect to Starbound bridge at " ++ bridge_url ++
       ". Make sure the game is running with the wsap_bridge mod."))
  | Transport.otherFailure msg =>
    Except.error (AdapterError.runtimeError ("Bridge request failed: " ++ msg))

/-- Event dataclass (src/wsap/core.py). -/
structure Event where
  description : String
  type : String
deriving DecidableEq

/-- Location dataclass (src/wsap/core.py); coordinates are floats. -/
structure Location where
  coordinates : ℚ × ℚ
  region : Option String
  description : String
deriving DecidableEq

/-- Observation dataclass (src/wsap/core.py), restricted to the fields the
claims distinguish observations by: `nearby_entities`, `nearby_terrain`,
`active_effects` and `current_goals` are parsed element-wise from the same
payload and are inspected by no claim, so they are omitted here. -/
structure Observation where
  status : List (String × ℚ)
  inventory : List (String × ℤ)
  location : Location
  recent_events : List Event
  step : ℤ
  time_of_day : Option String
deriving DecidableEq

/-- Action dataclass (src/wsap/core.py). -/
structure Action where
  name : String
  parameters : List (String × JValue)
  reasoning : Option String
deriving DecidableEq

/-- ActionResult dataclass (src/wsap/core.py). -/
structure ActionResult where
  success : Bool
  message : String
  reward : ℚ
  achievements : List String
  done : Bool
  observation : Option Observation
deriving DecidableEq

/-- Decoded payload of a successful `/observe` bridge reply: each field the
adapter reads with `data.get(...)`, absent when the key is missing. -/
structure ObserveData where
  health : Option ℚ
  max_health : Option ℚ
  energy : Option ℚ
  max_energy : Option ℚ
  position : Option (ℚ × ℚ)
  world_name : Option String
  location_description : Option String
  inventory : List (String × ℤ)
  time_of_day : Option String
deriving DecidableEq

/-- One entry of the `events` list of an `/act` reply. -/
structure EventData where
  description : Option String
  type : Option String
deriving DecidableEq

/-- Decoded payload of a successful `/act` bridge reply. -/
structure ActData where
  success : Option Bool
  message : Option String
  reward : Option ℚ
  achievements : Option (List String)
  done : Option Bool
  events : List EventData
deriving DecidableEq

/-- Mutable state of a StarboundAdapter instance. -/
structure AdapterState where
  bridge_url : String
  timeout : ℤ
  player_id : Option String
  step : ℤ
  connected : Bool
  last_observation : Option Observation
  recent_events : List Event
deriving DecidableEq

/-- A freshly constructed StarboundAdapter with the default constructor
arguments. -/
def mkStarboundAdapter : AdapterState :=
  { bridge_url := "http://localhost:9999"
    timeout := 10
    player_id := none
    step := 0
    connected := false
    last_observation := none
    recent_events := [] }

/-- Names of the entries of STARBOUND_ACTIONS; `act` validates the incoming
action name against this list. -/
def starboundActionNames : List String :=
  ["move_left", "move_right", "jump", "drop", "warp", "beam_up", "beam_down",
   "interact", "use_tool", "attack", "alt_attack",
   "equip", "unequip", "consume", "drop_item",
   "craft", "open_crafting",
   "say", "emote",
   "check_quest", "track_quest",
   "use_tech",
   "wait", "look"]

/-- StarboundAdapter._empty_observation. -/
def StarboundAdapter.empty_observation (s : AdapterState) : Observation :=
  { status := [("health", 0), ("energy", 0)]
    inventory := []
    location := { coordinates := (0, 0), region := some "disconnected",
                  description := "Not connected to game" }
    recent_events := []
    step := s.step
    time_of_day := none }

/-- The last five recent events, `self._recent_events[-5:]`. -/
def lastFive (events : List Event) : List Event :=
  events.drop (events.length - 5)

/-- Parsing of an `/observe` reply into an Observation, with the source's
`data.get` defaults. -/
def StarboundAdapter.parse_observation (s : AdapterState) (data : ObserveData) :
    Observation :=
  { status := [("health", data.health.getD 100),
               ("max_health", data.max_health.getD 100),
               ("energy", data.energy.getD 100),
               ("max_energy", data.max_energy.getD 100)]
    inventory := data.inventory
    location := { coordinates := data.position.getD (0, 0)
                  region := some (data.world_name.getD "unknown")
                  description := data.location_description.getD "" }
    recent_events := lastFive s.recent_events
    step := s.step
    time_of_day := data.time_of_day }

/-- StarboundAdapter.observe: on a raised ConnectionError the method
swallows the error and returns the last known observation, or an empty
observation when none exists; any other raised error propagates. On success
the parsed observation is cached as the last observation. -/
def StarboundAdapter.observe (s : AdapterState) (t : Transport ObserveData) :
    Except AdapterError (Observation × AdapterState) :=
  match pyRequest t s.bridge_url with
  | Except.error (AdapterError.connectionError _) =>
    match s.last_observation with
    | some obs => Except.ok (obs, s)
    | none => Except.ok (StarboundAdapter.empty_observation s, s)
  | Except.error e => Except.error e
  | Except.ok data =>
    let obs := StarboundAdapter.parse_observation s data
    Except.ok (obs, { s with last_observation := some obs })

/-- StarboundAdapter.act: bump the step counter, clear recent events,
reject unknown action names with `success=false`, and otherwise send the
action over the bridge. A raised ConnectionError from the `/act` request is
converted into a `success=false` ActionResult carrying the error text and
the last-known (or empty) observation; other raised errors propagate. The
result observation comes from a nested `observe()` call using `tObs`. -/
def StarboundAdapter.act (s : AdapterState) (action : Action)
    (tAct : Transport ActData) (tObs : Transport ObserveData) :
    Except AdapterError (ActionResult × AdapterState) :=
  let s := { s with step := s.step + 1, recent_events := [] }
  if action.name ∉ starboundActionNames then
    match StarboundAdapter.observe s tObs with
    | Except.error e => Except.error e
    | Except.ok (obs, s) =>
      Except.ok
        ({ success := false, message := "Unknown action: " ++ action.name,
           reward := 0, achievements := [], done := false,
           observation := some obs }, s)
  else
    match pyRequest tAct s.bridge_url with
    | Except.error (AdapterError.connectionError msg) =>
      Except.ok
        ({ success := false, message := msg, reward := 0, achievements := [],
           done := false,
           observation := some (s.last_observation.getD
             (StarboundAdapter.empty_observation s)) }, s)
    | Except.error e => Except.error e
    | Except.ok result =>
      let s := { s with recent_events := result.events.map (fun e =>
        { description := e.description.getD "", type := e.type.getD "info" }) }
      match StarboundAdapter.observe s tObs with
      | Except.error e => Except.error e
      | Except.ok (obs, s) =>
        Except.ok
          ({ success := result.success.getD false
             message := result.message.getD action.name
             reward := result.reward.getD 0
             achievements := result.achievements.getD []
             done := result.done.getD false
             observation := some obs }, s)

/-- StarboundAdapter.reset: zero the step counter, clear the events, send
`/reset` ignoring a raised ConnectionError (bare `pass`) but propagating
any other raised error, then observe. -/
def StarboundAdapter.reset (s : AdapterState) (tReset : Transport Unit)
    (tObs : Transport ObserveData) :
    Except AdapterError (Observation × AdapterState) :=
  let s := { s with step := 0, recent_events := [] }
  match pyRequest tReset s.bridge_url with
  | Except.error (AdapterError.connectionError _) => StarboundAdapter.observe s tObs
  | Except.error e => Except.error e
  | Except.ok _ => StarboundAdapter.observe s tObs

/-! ## Shared lemmas -/

theorem mem_dictSet {κ α : Type} [DecidableEq κ] (m : List (κ × α)) (k : κ) (v : α) :
    ∀ p ∈ dictSet m k v, p = (k, v) ∨ p ∈ m := by
  induction m with
  | nil =>
    intro p hp
    simp [dictSet] at hp
    exact Or.inl hp
  | cons q rest ih =>
    obtain ⟨k2, v2⟩ := q
    intro p hp
    by_cases h : k2 = k
    · simp [dictSet, h] at hp
      rcases hp with h1 | h1
      · exact Or.inl h1
      · exact Or.inr (by simp [h1])
    · simp [dictSet, h] at hp
      rcases hp with h1 | h1
      · exact Or.inr (by simp [h1])
      · rcases ih p h1 with h2 | h2
        · exact Or.inl h2
        · exact Or.inr (by simp [h2])

/-! ## C10: update_agent_stats on an unregistered agent -/

/-- C10: calling update_agent_stats with an agent_id that was never
registered is a silent no-op: no exception is modelled (the function is
total), no identity is created, and the entire hub state is returned
unchanged for every combination of arguments. -/
theorem C10_update_stats_unknown_agent_noop (s : NexusState) (agent_id : String)
    (steps : ℤ) (reward : ℚ) (achievements : Option (List String))
    (skill_updates : Option (List (String × ℚ))) (now : String)
    (h : dictGet s.agents agent_id = none) :
    NexusServer.update_agent_stats s agent_id steps reward achievements
      skill_updates now = s := by
  unfold NexusServer.update_agent_stats
  rw [h]

/-- Witness for C10 at a concrete hub state and argument combination. -/
theorem C10_update_stats_unknown_agent_noop_witness :
    NexusServer.update_agent_stats (NexusState.mk [] [] [] []) "ghost" 50 (3/2)
      (some ["collect_wood"]) (some [("combat", 2)]) "t0" =
      NexusState.mk [] [] [] [] :=
  C10_update_stats_unknown_agent_noop (NexusState.mk [] [] [] []) "ghost" 50 (3/2)
    (some ["collect_wood"]) (some [("combat", 2)]) "t0" rfl

/-! ## C6: register_agent idempotence -/

/-- C6: register_agent is idempotent — a second call with the same id
returns the already-stored identity and leaves the state unchanged, and in
the concrete scenario registering "a1", accruing 50 steps via
update_agent_stats and registering "a1" again leaves total_steps at 50. -/
theorem C6_register_agent_idempotent :
    (∀ (s : NexusState) (agent_id name now : String) (identity : AgentIdentity),
      dictGet s.agents agent_id = some identity →
      NexusServer.register_agent s agent_id name now = (s, identity)) ∧
    (NexusServer.register_agent (NexusState.mk [] [] [] []) "a1" "Nova" "t1").2.total_steps = 0 ∧
    (NexusServer.register_agent
      (NexusServer.update_agent_stats
        (NexusServer.register_agent (NexusState.mk [] [] [] []) "a1" "Nova" "t1").1
        "a1" 50 0 none none "t2")
      "a1" "Nova" "t3").2.total_steps = 50 ∧
    (NexusServer.register_agent
      (NexusServer.update_agent_stats
        (NexusServer.register_agent (NexusState.mk [] [] [] []) "a1" "Nova" "t1").1
        "a1" 50 0 none none "t2")
      "a1" "Nova" "t3").1 =
    NexusServer.update_agent_stats
      (NexusServer.register_agent (NexusState.mk [] [] [] []) "a1" "Nova" "t1").1
      "a1" 50 0 none none "t2" := by
  refine ⟨?_, by decide, by decide, by decide⟩
  intro s agent_id name now identity h
  unfold NexusServer.register_agent
  rw [h]

/-- Witness for C6: the general idempotence part applied to the state that
already stores "a1". -/
theorem C6_register_agent_idempotent_witness :
    NexusServer.register_agent
      (NexusState.mk [] [("a1", mkAgentIdentity "a1" "Nova" "t1")] [] [])
      "a1" "Nova" "t3" =
    (NexusState.mk [] [("a1", mkAgentIdentity "a1" "Nova" "t1")] [] [],
     mkAgentIdentity "a1" "Nova" "t1") :=
  C6_register_agent_idempotent.1
    (NexusState.mk [] [("a1", mkAgentIdentity "a1" "Nova" "t1")] [] [])
    "a1" "Nova" "t3" (mkAgentIdentity "a1" "Nova" "t1") rfl

/-! ## C9: avatar binding invariant -/

/-- C9 counterexample: starting from a fresh avatar, jack_in followed by
jack_out with the unrecognized mode "linger" leaves state == bound while
bound_agent is cleared, so the claimed invariant fails for that mode. -/
theorem C9_binding_invariant_counterexample :
    (runAvatarOps (mkAvatar "av1" "crafter" "t0")
      [AvatarOp.jackIn "a1" "t1", AvatarOp.jackOut "linger" "t2"]).state =
      AvatarState.bound ∧
    (runAvatarOps (mkAvatar "av1" "crafter" "t0")
      [AvatarOp.jackIn "a1" "t1", AvatarOp.jackOut "linger" "t2"]).bound_agent =
      none ∧
    ¬ boundInvariant (runAvatarOps (mkAvatar "av1" "crafter" "t0")
      [AvatarOp.jackIn "a1" "t1", AvatarOp.jackOut "linger" "t2"]) := by
  decide

theorem boundInvariant_applyAvatarOp (a : Avatar) (op : AvatarOp)
    (hinv : boundInvariant a)
    (hop : match op with
           | AvatarOp.jackOut mode _ => validMode mode = true
           | AvatarOp.jackIn _ _ => True) :
    boundInvariant (applyAvatarOp a op) := by
  cases op with
  | jackIn agent_id now =>
    simp [applyAvatarOp, Avatar.jack_in, boundInvariant]
  | jackOut mode now =>
    simp only [validMode, Bool.or_eq_true, beq_iff_eq] at hop
    rcases hop with (h | h) | h <;>
      simp [applyAvatarOp, Avatar.jack_out, boundInvariant, h]

theorem runAvatarOps_boundInvariant :
    ∀ (ops : List AvatarOp) (a : Avatar),
      boundInvariant a → validModes ops = true →
      boundInvariant (runAvatarOps a ops) := by
  intro ops
  induction ops with
  | nil => intro a h _; exact h
  | cons op rest ih =>
    intro a h hv
    simp only [validModes, Bool.and_eq_true] at hv
    exact ih (applyAvatarOp a op) (boundInvariant_applyAvatarOp a op h (by
      cases op with
      | jackIn agent_id now => trivial
      | jackOut mode now => exact hv.1)) hv.2

/-- C9 as amended: for jack_out modes restricted to the three recognized
strings dormant/suspend/despawn, the invariant "bound_agent is non-null iff
state == bound" is preserved by every jack_in/jack_out sequence from a
fresh avatar; jack_out always clears bound_agent (any mode), and the three
recognized modes map to dormant/suspended/destroyed respectively. -/
theorem C9_binding_invariant_amended (avatar_id game_id now : String)
    (ops : List AvatarOp) (h : validModes ops = true) :
    boundInvariant (runAvatarOps (mkAvatar avatar_id game_id now) ops) ∧
    (∀ (a : Avatar) (mode now2 : String), (a.jack_out mode now2).bound_agent = none) ∧
    (∀ (a : Avatar) (now2 : String),
      (a.jack_out "dormant" now2).state = AvatarState.dormant ∧
      (a.jack_out "suspend" now2).state = AvatarState.suspended ∧
      (a.jack_out "despawn" now2).state = AvatarState.destroyed) := by
  refine ⟨?_, ?_, ?_⟩
  · exact runAvatarOps_boundInvariant ops (mkAvatar avatar_id game_id now)
      (by simp [mkAvatar, boundInvariant]) h
  · intro a mode now2
    simp [Avatar.jack_out]
  · intro a now2
    refine ⟨?_, ?_, ?_⟩ <;> simp [Avatar.jack_out]

/-- Witness for C9 as amended, at a concrete two-operation history. -/
theorem C9_binding_invariant_amended_witness :
    boundInvariant (runAvatarOps (mkAvatar "av1" "crafter" "t0")
      [AvatarOp.jackIn "a1" "t1", AvatarOp.jackOut "dormant" "t2"]) :=
  (C9_binding_invariant_amended "av1" "crafter" "t0"
    [AvatarOp.jackIn "a1" "t1", AvatarOp.jackOut "dormant" "t2"] (by decide)).1

/-! ## C3: stale results are retained, not expired -/

/-- The queue state reached by submitting one command, letting it time out
with no poller, and then delivering a late result for its id. -/
def c3LeakState : CommandQueue :=
  (((CommandQueue.empty.submitStart [("type", JValue.jstr "observe")]).1.submitFinish
      0 false).1).submit_result 0 [("status", JValue.jstr "done")]

/-- C3: the code violates the claim — after a timeout expires the wait
handle is gone, yet a late submit_result stores the result unconditionally
and nothing ever removes it, so the stored-results map retains an entry for
an id that has no registered wait handle. -/
theorem C3_stale_result_retained :
    dictGet c3LeakState.results 0 = some [("status", JValue.jstr "done")] ∧
    dictGet c3LeakState.result_events 0 = none := by
  decide

/-! ## C4: skills stay in the unit interval -/

/-- Every skill level in the dict lies in the closed interval [0, 1]. -/
def skillsInRange (skills : List (String × ℚ)) : Prop :=
  ∀ p ∈ skills, 0 ≤ p.2 ∧ p.2 ≤ 1

instance (skills : List (String × ℚ)) : Decidable (skillsInRange skills) := by
  unfold skillsInRange
  infer_instance

theorem mem_of_dictGet {κ α : Type} [DecidableEq κ] (m : List (κ × α)) (k : κ)
    (v : α) (h : dictGet m k = some v) : (k, v) ∈ m := by
  induction m with
  | nil => simp [dictGet] at h
  | cons q rest ih =>
    obtain ⟨k2, v2⟩ := q
    by_cases hk : k2 = k
    · simp [dictGet, hk] at h
      simp [hk, h]
    · simp [dictGet, hk] at h
      exact List.mem_cons_of_mem _ (ih h)

theorem skillsInRange_update_skill (i : AgentIdentity) (domain : String) (delta : ℚ)
    (h : skillsInRange i.skills) :
    skillsInRange (i.update_skill domain delta).skills := by
  have hclamp : ∀ x : ℚ, 0 ≤ min 1 (max 0 x) ∧ min 1 (max 0 x) ≤ 1 :=
    fun x => ⟨le_min zero_le_one (le_max_left 0 x), min_le_left 1 (max 0 x)⟩
  intro p hp
  have hp2 : p ∈ dictSet
      (if dictMem i.skills domain then i.skills else dictSet i.skills domain 0)
      domain
      (min 1 (max 0 ((dictGet (if dictMem i.skills domain then i.skills
        else dictSet i.skills domain 0) domain).getD 0 + delta))) := hp
  rcases mem_dictSet _ _ _ p hp2 with h1 | h1
  · rw [h1]
    exact hclamp _
  · by_cases hmem : dictMem i.skills domain
    · rw [if_pos hmem] at h1
      exact h p h1
    · rw [if_neg hmem] at h1
      rcases mem_dictSet _ _ _ p h1 with h2 | h2
      · rw [h2]
        exact ⟨le_refl 0, zero_le_one⟩
      · exact h p h2

theorem skillsInRange_foldl_update_skill :
    ∀ (updates : List (String × ℚ)) (i : AgentIdentity),
      skillsInRange i.skills →
      skillsInRange (updates.foldl (fun i u => i.update_skill u.1 u.2) i).skills := by
  intro updates
  induction updates with
  | nil => intro i h; exact h
  | cons u rest ih =>
    intro i h
    exact ih (i.update_skill u.1 u.2) (skillsInRange_update_skill i u.1 u.2 h)

/-- C4: after any update_skill call — directly, or for every skill applied
through update_agent_stats with skill_updates — every skill domain's level
lies in [0, 1], regardless of the delta's magnitude or sign, for every
identity whose stored levels lie in [0, 1] (as every identity created by
register_agent does). -/
theorem C4_skill_levels_clamped :
    (∀ (agent_id name now : String),
      skillsInRange (mkAgentIdentity agent_id name now).skills) ∧
    (∀ (i : AgentIdentity) (domain : String) (delta : ℚ),
      skillsInRange i.skills →
      skillsInRange (i.update_skill domain delta).skills) ∧
    (∀ (s : NexusState) (agent_id : String) (steps : ℤ) (reward : ℚ)
       (achievements : Option (List String))
       (skill_updates : Option (List (String × ℚ))) (now : String),
      (∀ p ∈ s.agents, skillsInRange p.2.skills) →
      ∀ p ∈ (NexusServer.update_agent_stats s agent_id steps reward achievements
               skill_updates now).agents,
        skillsInRange p.2.skills) := by
  refine ⟨?_, skillsInRange_update_skill, ?_⟩
  · intro agent_id name now
    show skillsInRange (initSkills [])
    decide
  · intro s agent_id steps reward achievements skill_updates now hall p hp
    cases hid : dictGet s.agents agent_id with
    | none =>
      unfold NexusServer.update_agent_stats at hp
      rw [hid] at hp
      exact hall p hp
    | some identity =>
      have hidRange : skillsInRange identity.skills :=
        hall (agent_id, identity) (mem_of_dictGet s.agents agent_id identity hid)
      have hsteps : skillsInRange
          ({ identity with total_steps := identity.total_steps + steps } :
            AgentIdentity).skills := hidRange
      unfold NexusServer.update_agent_stats at hp
      rw [hid] at hp
      cases skill_updates with
      | none =>
        cases achievements with
        | none =>
          rcases mem_dictSet _ _ _ p hp with h1 | h1
          · rw [h1]; exact hsteps
          · exact hall p h1
        | some names =>
          rcases mem_dictSet _ _ _ p hp with h1 | h1
          · rw [h1]; exact hsteps
          · exact hall p h1
      | some updates =>
        have hupd : skillsInRange
            ((updates.foldl (fun i u => i.update_skill u.1 u.2)
              { identity with total_steps := identity.total_steps + steps }) :
              AgentIdentity).skills :=
          skillsInRange_foldl_update_skill updates _ hsteps
        cases achievements with
        | none =>
          rcases mem_dictSet _ _ _ p hp with h1 | h1
          · rw [h1]; exact hupd
          · exact hall p h1
        | some names =>
          rcases mem_dictSet _ _ _ p hp with h1 | h1
          · rw [h1]; exact hupd
          · exact hall p h1

/-- Witness for C4 at a freshly registered identity, an oversized positive
delta and an oversized negative delta applied through update_agent_stats. -/
theorem C4_skill_levels_clamped_witness :
    skillsInRange ((mkAgentIdentity "a1" "Nova" "t0").update_skill "combat" 100).skills ∧
    ∀ p ∈ (NexusServer.update_agent_stats
        (NexusState.mk [] [("a1", mkAgentIdentity "a1" "Nova" "t0")] [] [])
        "a1" 10 0 none (some [("combat", 100), ("survival", -7)]) "t1").agents,
      skillsInRange p.2.skills :=
  ⟨C4_skill_levels_clamped.2.1 (mkAgentIdentity "a1" "Nova" "t0") "combat" 100
    (by decide),
   C4_skill_levels_clamped.2.2
    (NexusState.mk [] [("a1", mkAgentIdentity "a1" "Nova" "t0")] [] [])
    "a1" 10 0 none (some [("combat", 100), ("survival", -7)]) "t1" (by decide)⟩

/-! ## C5: transit_in then transit_out restores the agent count -/

/-- C5: for a registered agent and a registered available game (with the
non-negative agent count every reachable registry has), transit_in succeeds,
and an immediately following transit_out for the same pair restores the
game's active_agents to its pre-transit value and returns a TransitPackage
whose origin_game is that game's id. -/
theorem C5_transit_roundtrip (s : NexusState) (entry : EntryPackage)
    (reason now1 now2 : String) (game : GameInfo) (identity : AgentIdentity)
    (hg : dictGet s.games entry.game_id = some game)
    (hst : game.status = GameStatus.available)
    (ha : dictGet s.agents entry.agent_id = some identity)
    (hag : 0 ≤ game.active_agents) :
    (NexusServer.transit_in s entry now1).2 =
      TransitInResult.success
        ("sess_" ++ entry.agent_id ++ "_" ++ entry.game_id ++ "_" ++ now1)
        game.bridge_url
        (NexusServer.calculate_bonuses identity.skills entry.game_id) ∧
    ∃ s2 pkg,
      NexusServer.transit_out (NexusServer.transit_in s entry now1).1
        entry.agent_id entry.game_id reason now2 = Except.ok (s2, pkg) ∧
      (dictGet s2.games entry.game_id).map GameInfo.active_agents =
        some game.active_agents ∧
      pkg.origin_game = entry.game_id := by
  unfold NexusServer.transit_in NexusServer.transit_out
  simp only [hg, hst, ha, ne_eq, not_true_eq_false, if_false, Option.map_some,
    Option.getD_some, reduceCtorEq, ite_false, dictGet_dictSet_self]
  refine ⟨by trivial, ?_⟩
  refine ⟨_, _, rfl, ?_, rfl⟩
  simp only [dictGet_dictSet_self]
  show some (max 0 (game.active_agents + 1 - 1)) = some game.active_agents
  rw [add_sub_cancel_right, max_eq_right hag]

/-- Concrete registry entry for the C5 witness. -/
def c5Game : GameInfo :=
  { id := "crafter"
    name := "Crafter"
    description := "2D survival game"
    status := GameStatus.available
    genre := ["survival", "sandbox"]
    skill_domains := ["resource_management", "survival", "crafting", "combat"]
    active_agents := 0
    bridge_url := some "http://localhost:9997" }

/-- Concrete hub state for the C5 witness. -/
def c5State : NexusState :=
  NexusState.mk [("crafter", c5Game)] [("a1", mkAgentIdentity "a1" "Nova" "t0")] [] []

/-- Concrete entry package for the C5 witness. -/
def c5Entry : EntryPackage :=
  EntryPackage.mk "a1" "crafter" "safe" "normal" []

/-- Witness for C5 at a concrete registry with one available game,
active_agents = 0 and one registered agent. -/
theorem C5_transit_roundtrip_witness :
    (NexusServer.transit_in c5State c5Entry "now1").2 =
      TransitInResult.success ("sess_" ++ "a1" ++ "_" ++ "crafter" ++ "_" ++ "now1")
        c5Game.bridge_url
        (NexusServer.calculate_bonuses (mkAgentIdentity "a1" "Nova" "t0").skills
          "crafter") ∧
    ∃ s2 pkg,
      NexusServer.transit_out (NexusServer.transit_in c5State c5Entry "now1").1
        "a1" "crafter" "voluntary" "now2" = Except.ok (s2, pkg) ∧
      (dictGet s2.games "crafter").map GameInfo.active_agents =
        some c5Game.active_agents ∧
      pkg.origin_game = "crafter" :=
  C5_transit_roundtrip c5State c5Entry "voluntary" "now1" "now2" c5Game
    (mkAgentIdentity "a1" "Nova" "t0") rfl rfl rfl (by decide)

/-! ## C7: bonuses emitted only above the 0.1 threshold -/

theorem calc_bonuses_foldl_no_emit (skills : List (String × ℚ)) (bname : String) :
    ∀ (table : List (String × String × (ℚ → BonusValue)))
      (acc : List (String × BonusValue)),
      (∀ e ∈ table, e.2.1 = bname → ∀ l, dictGet skills e.1 = some l → l ≤ 1/10) →
      dictGet
        (table.foldl
          (fun bonuses entry =>
            match dictGet skills entry.1 with
            | some level =>
              if level > 1/10 then dictSet bonuses entry.2.1 (entry.2.2 level)
              else bonuses
            | none => bonuses)
          acc) bname = dictGet acc bname := by
  intro table
  induction table with
  | nil => intro acc _; rfl
  | cons e rest ih =>
    intro acc hthr
    have hrest : ∀ e2 ∈ rest, e2.2.1 = bname →
        ∀ l, dictGet skills e2.1 = some l → l ≤ 1/10 :=
      fun e2 he2 => hthr e2 (List.mem_cons_of_mem e he2)
    cases hl : dictGet skills e.1 with
    | none =>
      simp only [List.foldl_cons, hl]
      exact ih acc hrest
    | some level =>
      by_cases hgt : level > 1/10
      · have hne : e.2.1 ≠ bname := by
          intro heq
          exact absurd (hthr e (List.mem_cons_self e rest) heq level hl)
            (not_le_of_lt hgt)
        simp only [List.foldl_cons, hl, if_pos hgt]
        rw [ih (dictSet acc e.2.1 (e.2.2 level)) hrest,
          dictGet_dictSet_ne acc e.2.1 bname (e.2.2 level) hne]
      · simp only [List.foldl_cons, hl, if_neg hgt]
        exact ih acc hrest

/-- Agent for the C7 scenario, with exactly the claim's skills dict
{resource_management: 0.5, survival: 0.0}. -/
def c7Identity : AgentIdentity :=
  { mkAgentIdentity "a1" "Nova" "t0" with
      skills := [("resource_management", 1/2), ("survival", 0)] }

/-- Concrete hub state for the C7 scenario: the crafter game registered and
the scenario agent. -/
def c7State : NexusState :=
  NexusState.mk [("crafter", c5Game)] [("a1", c7Identity)] [] []

/-- C7: a starting bonus for a skill domain listed in the game's static
bonus table is emitted only if the agent's level in that domain exceeds 0.1
(contrapositive: when every table entry producing a bonus name has its
domain at a level of at most 0.1, that bonus name is absent); and in the
concrete scenario, transit_in to "crafter" with skills
{resource_management: 0.5, survival: 0.0} yields exactly
inventory_bonus = int(0.5*3) = 1 and no survival-derived bonus key. -/
theorem C7_bonus_threshold :
    (∀ (skills : List (String × ℚ)) (game_id : String)
       (table : List (String × String × (ℚ → BonusValue))) (bname : String),
      dictGet bonusMaps game_id = some table →
      (∀ e ∈ table, e.2.1 = bname → ∀ l, dictGet skills e.1 = some l → l ≤ 1/10) →
      dictGet (NexusServer.calculate_bonuses skills game_id) bname = none) ∧
    (NexusServer.transit_in c7State (EntryPackage.mk "a1" "crafter" "safe" "normal" [])
        "ts").2 =
      TransitInResult.success "sess_a1_crafter_ts" (some "http://localhost:9997")
        [("inventory_bonus", BonusValue.intVal 1)] := by
  constructor
  · intro skills game_id table bname hmap hthr
    unfold NexusServer.calculate_bonuses
    rw [hmap]
    rw [calc_bonuses_foldl_no_emit skills bname table [] hthr]
    rfl
  · have hb : NexusServer.calculate_bonuses c7Identity.skills "crafter" =
        [("inventory_bonus", BonusValue.intVal 1)] := by
      unfold NexusServer.calculate_bonuses bonusMaps
      simp [dictGet, dictSet, pyInt, c7Identity, mkAgentIdentity]
      norm_num
    unfold NexusServer.transit_in
    simp [c7State, c5Game, dictGet, hb]

/-- Witness for C7: the general threshold part applied to an agent with an
empty skills dict, the crafter table and the bonus name "health_bonus" — no
domain is present above 0.1, so the bonus is absent. -/
theorem C7_bonus_threshold_witness :
    dictGet (NexusServer.calculate_bonuses [] "crafter") "health_bonus" = none :=
  C7_bonus_threshold.1 [] "crafter"
    [("resource_management", ("inventory_bonus", fun s => BonusValue.intVal (pyInt (s * 3)))),
     ("survival", ("health_bonus", fun s => BonusValue.intVal (pyInt (s * 2)))),
     ("crafting", ("recipe_hint", fun s => BonusValue.boolVal (decide (s > 3/10))))]
    "health_bonus" rfl
    (by
      intro e he heq l hl
      simp [dictGet] at hl)

/-! ## C2: timeout returns a structured error; stray deliveries are isolated -/

theorem runEvents_preserves_unset_waiter :
    ∀ (events : List QEvent) (q : CommandQueue) (cmd_id : Nat),
      cmd_id < q.next_id →
      dictGet q.result_events cmd_id = some false →
      noEventsFor cmd_id events = true →
      cmd_id < (runEvents q events).next_id ∧
      dictGet (runEvents q events).result_events cmd_id = some false := by
  intro events
  induction events with
  | nil =>
    intro q cmd_id h1 h2 _
    exact ⟨h1, h2⟩
  | cons e rest ih =>
    intro q cmd_id h1 h2 hne
    have hstep : cmd_id < (stepEvent q e).next_id ∧
        dictGet (stepEvent q e).result_events cmd_id = some false := by
      cases e with
      | start cmd =>
        refine ⟨Nat.lt_succ_of_lt h1, ?_⟩
        show dictGet (dictSet q.result_events q.next_id false) cmd_id = some false
        rw [dictGet_dictSet_ne q.result_events q.next_id cmd_id false
          (Nat.ne_of_gt h1)]
        exact h2
      | deliver j r =>
        simp only [noEventsFor, Bool.and_eq_true, Bool.not_eq_eq_eq_not,
          Bool.not_true, beq_eq_false_iff_ne, ne_eq] at hne
        have hji : j ≠ cmd_id := hne.1
        refine ⟨h1, ?_⟩
        show dictGet (if dictMem q.result_events j
            then dictSet q.result_events j true else q.result_events) cmd_id =
          some false
        by_cases hm : dictMem q.result_events j
        · rw [if_pos hm, dictGet_dictSet_ne q.result_events j cmd_id true hji]
          exact h2
        · rw [if_neg hm]
          exact h2
      | finish j b =>
        simp only [noEventsFor, Bool.and_eq_true, Bool.not_eq_eq_eq_not,
          Bool.not_true, beq_eq_false_iff_ne, ne_eq] at hne
        have hji : j ≠ cmd_id := hne.1
        cases b with
        | true =>
          refine ⟨h1, ?_⟩
          show dictGet (dictDel q.result_events j) cmd_id = some false
          rw [dictGet_dictDel_ne q.result_events j cmd_id hji]
          exact h2
        | false =>
          refine ⟨h1, ?_⟩
          show dictGet (if dictMem q.result_events j
              then dictDel q.result_events j else q.result_events) cmd_id =
            some false
          by_cases hm : dictMem q.result_events j
          · rw [if_pos hm, dictGet_dictDel_ne q.result_events j cmd_id hji]
            exact h2
          · rw [if_neg hm]
            exact h2
      | poll =>
        cases hp : q.pending_commands with
        | nil =>
          constructor
          · show cmd_id < (q.get_next_command).1.next_id
            simp [CommandQueue.get_next_command, hp]
            exact h1
          · show dictGet (q.get_next_command).1.result_events cmd_id = some false
            simp [CommandQueue.get_next_command, hp]
            exact h2
        | cons c cs =>
          constructor
          · show cmd_id < (q.get_next_command).1.next_id
            simp [CommandQueue.get_next_command, hp]
            exact h1
          · show dictGet (q.get_next_command).1.result_events cmd_id = some false
            simp [CommandQueue.get_next_command, hp]
            exact h2
    have hne2 : noEventsFor cmd_id rest = true := by
      cases e <;> simp only [noEventsFor, Bool.and_eq_true] at hne <;> exact hne.2
    exact ih (stepEvent q e) cmd_id hstep.1 hstep.2 hne2

/-- C2: a command submitted with a timeout and never resolved via
submit_result always completes with the structured timeout dict (the model
makes "completes" explicit: with the waiter's event never fired, the only
possible wait outcome is the timeout branch, which also removes the orphaned
handle), and a later stray submit_result for that id changes neither the
pending queue nor the wait handles, nor the stored result, the wait outcome
or the fresh id of any other in-flight or future submit call. -/
theorem C2_timeout_error_and_stray_isolation
    (q0 q1 : CommandQueue) (command : BridgeResult) (cmd_id : Nat)
    (events : List QEvent) (signaled : Bool) (stray : BridgeResult)
    (hstart : q0.submitStart command = (q1, cmd_id))
    (hne : noEventsFor cmd_id events = true)
    (hsig : signaled = true → eventFlag (runEvents q1 events) cmd_id = some true) :
    ((runEvents q1 events).submitFinish cmd_id signaled).2 = timeoutError ∧
    dictGet ((runEvents q1 events).submitFinish cmd_id signaled).1.result_events
      cmd_id = none ∧
    (((((runEvents q1 events).submitFinish cmd_id signaled).1.submit_result
        cmd_id stray).pending_commands =
      ((runEvents q1 events).submitFinish cmd_id signaled).1.pending_commands) ∧
     ((((runEvents q1 events).submitFinish cmd_id signaled).1.submit_result
        cmd_id stray).result_events =
      ((runEvents q1 events).submitFinish cmd_id signaled).1.result_events) ∧
     (∀ j, j ≠ cmd_id →
       dictGet ((((runEvents q1 events).submitFinish cmd_id signaled).1.submit_result
         cmd_id stray).results) j =
       dictGet (((runEvents q1 events).submitFinish cmd_id signaled).1.results) j) ∧
     (∀ (j : Nat) (b : Bool), j ≠ cmd_id →
       (((((runEvents q1 events).submitFinish cmd_id signaled).1.submit_result
         cmd_id stray).submitFinish j b)).2 =
       ((((runEvents q1 events).submitFinish cmd_id signaled).1.submitFinish j b)).2) ∧
     (∀ cmd2 : BridgeResult,
       ((((runEvents q1 events).submitFinish cmd_id signaled).1.submit_result
         cmd_id stray).submitStart cmd2).2 =
       ((((runEvents q1 events).submitFinish cmd_id signaled).1.submitStart cmd2)).2 ∧
       ((((runEvents q1 events).submitFinish cmd_id signaled).1.submitStart cmd2)).2 ≠
         cmd_id)) := by
  have hq1 : q1 = (q0.submitStart command).1 := by rw [hstart]
  have hid : cmd_id = (q0.submitStart command).2 := by rw [hstart]
  have h1 : cmd_id < q1.next_id := by
    rw [hq1, hid]
    exact Nat.lt_succ_self q0.next_id
  have h2 : dictGet q1.result_events cmd_id = some false := by
    rw [hq1, hid]
    exact dictGet_dictSet_self q0.result_events q0.next_id false
  obtain ⟨hlt, hflag⟩ := runEvents_preserves_unset_waiter events q1 cmd_id h1 h2 hne
  have hb : signaled = false := by
    cases hs : signaled with
    | false => rfl
    | true =>
      have := hsig hs
      unfold eventFlag at this
      rw [hflag] at this
      exact absurd this (by simp)
  subst hb
  have hmem : dictMem (runEvents q1 events).result_events cmd_id = true := by
    unfold dictMem
    rw [hflag]
    rfl
  have hdel : dictGet ((runEvents q1 events).submitFinish cmd_id false).1.result_events
      cmd_id = none := by
    show dictGet (if dictMem (runEvents q1 events).result_events cmd_id
        then dictDel (runEvents q1 events).result_events cmd_id
        else (runEvents q1 events).result_events) cmd_id = none
    rw [if_pos hmem]
    exact dictGet_dictDel_self (runEvents q1 events).result_events cmd_id
  have hnm : dictMem ((runEvents q1 events).submitFinish cmd_id false).1.result_events
      cmd_id = false := by
    unfold dictMem
    rw [hdel]
    rfl
  refine ⟨rfl, hdel, rfl, ?_, ?_, ?_, ?_⟩
  · show (if dictMem ((runEvents q1 events).submitFinish cmd_id false).1.result_events
        cmd_id
      then dictSet ((runEvents q1 events).submitFinish cmd_id false).1.result_events
        cmd_id true
      else ((runEvents q1 events).submitFinish cmd_id false).1.result_events) =
      ((runEvents q1 events).submitFinish cmd_id false).1.result_events
    rw [if_neg (by rw [hnm]; simp)]
  · intro j hj
    show dictGet (dictSet ((runEvents q1 events).submitFinish cmd_id false).1.results
        cmd_id stray) j =
      dictGet ((runEvents q1 events).submitFinish cmd_id false).1.results j
    exact dictGet_dictSet_ne _ cmd_id j stray (fun hh => hj hh.symm)
  · intro j b hj
    cases b with
    | true =>
      show (dictGet (dictSet ((runEvents q1 events).submitFinish cmd_id
          false).1.results cmd_id stray) j).getD resultLost =
        (dictGet ((runEvents q1 events).submitFinish cmd_id false).1.results j).getD
          resultLost
      rw [dictGet_dictSet_ne _ cmd_id j stray (fun hh => hj hh.symm)]
    | false => rfl
  · intro cmd2
    refine ⟨rfl, ?_⟩
    show ((runEvents q1 events).submitFinish cmd_id false).1.next_id ≠ cmd_id
    show (runEvents q1 events).next_id ≠ cmd_id
    exact Nat.ne_of_gt hlt

/-- Witness for C2: the empty queue, one submitted command, an empty
interleaving and a stray late delivery. -/
theorem C2_timeout_error_and_stray_isolation_witness :
    ((runEvents (CommandQueue.empty.submitStart
        [("type", JValue.jstr "observe")]).1 []).submitFinish
      (CommandQueue.empty.submitStart [("type", JValue.jstr "observe")]).2
      false).2 = timeoutError ∧
    dictGet ((runEvents (CommandQueue.empty.submitStart
        [("type", JValue.jstr "observe")]).1 []).submitFinish
      (CommandQueue.empty.submitStart [("type", JValue.jstr "observe")]).2
      false).1.result_events
      (CommandQueue.empty.submitStart [("type", JValue.jstr "observe")]).2 = none :=
  have h := C2_timeout_error_and_stray_isolation CommandQueue.empty
    (CommandQueue.empty.submitStart [("type", JValue.jstr "observe")]).1
    [("type", JValue.jstr "observe")]
    (CommandQueue.empty.submitStart [("type", JValue.jstr "observe")]).2
    [] false [("late", JValue.jnull)] rfl rfl (fun hh => nomatch hh)
  ⟨h.1, h.2.1⟩

/-! ## C8: the suggestion list drops zero-score games -/

/-- Concrete available game with no skill domains, for the C8 counterexample. -/
def c8Game : GameInfo :=
  { id := "g"
    name := "G"
    description := ""
    status := GameStatus.available
    genre := []
    skill_domains := []
    active_agents := 0
    bridge_url := none }

/-- Agent who has already visited "g" and has every skill at 0.0. -/
def c8Identity : AgentIdentity :=
  { mkAgentIdentity "a1" "Nova" "t0" with games_visited := ["g"] }

/-- C8 counterexample: with one available game already visited and all
skills at 0, its score is 0; the claim's algorithm ranks every available
game and returns it among the top 3, but the code appends a suggestion only
when its score is strictly positive, so it returns the empty list. -/
theorem C8_suggestions_counterexample :
    NexusServer.suggest_games [("g", c8Game)] c8Identity = [] ∧
    claimSuggestGames [("g", c8Game)] c8Identity =
      [{ game_id := "g", game_name := "G", score := 0, reasons := [] }] ∧
    NexusServer.suggest_games [("g", c8Game)] c8Identity ≠
      claimSuggestGames [("g", c8Game)] c8Identity := by
  refine ⟨?_, ?_, ?_⟩ <;>
    simp [NexusServer.suggest_games, claimSuggestGames, scoreGame, c8Game,
      c8Identity, mkAgentIdentity, sortDescBy, insertDescBy]

theorem suggest_games_loop_eq (identity : AgentIdentity) :
    ∀ (games : List (String × GameInfo)) (acc : List Suggestion),
      games.foldl (suggestLoopBody identity) acc =
      acc ++ (((games.map (fun e => e.2)).filter
          (fun g => g.status = GameStatus.available)).map
        (fun g => Suggestion.mk g.id g.name (scoreGame identity g).1
          (scoreGame identity g).2)).filter (fun sug => sug.score > 0) := by
  intro games
  induction games with
  | nil =>
    intro acc
    simp
  | cons e rest ih =>
    intro acc
    by_cases hav : e.2.status = GameStatus.available
    · by_cases hsc : (scoreGame identity e.2).1 > 0
      · have hbody : suggestLoopBody identity acc e =
            acc ++ [Suggestion.mk e.2.id e.2.name (scoreGame identity e.2).1
              (scoreGame identity e.2).2] := by
          simp [suggestLoopBody, hav, hsc]
        rw [List.foldl_cons, hbody, ih]
        simp [hav, hsc, List.append_assoc]
      · have hbody : suggestLoopBody identity acc e = acc := by
          simp [suggestLoopBody, hav, hsc]
        rw [List.foldl_cons, hbody, ih]
        simp [hav, hsc]
    · have hbody : suggestLoopBody identity acc e = acc := by
        simp [suggestLoopBody, hav]
      rw [List.foldl_cons, hbody, ih]
      simp [hav]

/-- C8 as amended: for every registry and identity the suggestion list is
computed exactly as the claim describes — score each available game, sort by
score descending (stable) and return the top 3 — except that only games
with a strictly positive score are kept. -/
theorem C8_suggestions_amended (games : List (String × GameInfo))
    (identity : AgentIdentity) :
    NexusServer.suggest_games games identity = amendedSuggestGames games identity := by
  unfold NexusServer.suggest_games amendedSuggestGames
  rw [suggest_games_loop_eq identity games []]
  rw [List.nil_append]

/-! ## C1: the Starbound adapter masks connection failures -/

/-- C1 counterexample: on a fresh adapter with no cached observation, a
connection failure makes observe() return the fabricated empty observation
instead of raising, and act() on a valid action converts the failure into a
success=false ActionResult carrying the empty observation. -/
theorem C1_transport_failures_masked_counterexample :
    StarboundAdapter.observe mkStarboundAdapter Transport.connFailure =
      Except.ok (StarboundAdapter.empty_observation mkStarboundAdapter,
        mkStarboundAdapter) ∧
    StarboundAdapter.act mkStarboundAdapter
      { name := "wait", parameters := [], reasoning := none }
      Transport.connFailure Transport.connFailure =
      Except.ok
        ({ success := false
           message := "Cannot connect to Starbound bridge at http://localhost:9999. Make sure the game is running with the wsap_bridge mod."
           reward := 0
           achievements := []
           done := false
           observation := some (StarboundAdapter.empty_observation
             { mkStarboundAdapter with step := 1 }) },
         { mkStarboundAdapter with step := 1 }) := by
  constructor
  · rfl
  · rfl

/-- C1 as amended: transport failures surfacing as a requests
ConnectionError (connection refused, connect timeout) are masked — observe()
returns the last-known observation or an empty one, act() returns a
success=false ActionResult carrying the error text and the last-known or
empty observation, reset() ignores the failure and proceeds to observe() —
while every other transport failure (e.g. a read timeout) is raised as a
RuntimeError from the call that attempted it. -/
theorem C1_transport_failures_amended (s : AdapterState) (msg : String)
    (action : Action) (tObs : Transport ObserveData)
    (hname : action.name ∈ starboundActionNames) :
    StarboundAdapter.observe s (Transport.otherFailure msg) =
      Except.error (AdapterError.runtimeError ("Bridge request failed: " ++ msg)) ∧
    StarboundAdapter.observe s Transport.connFailure =
      Except.ok (s.last_observation.getD (StarboundAdapter.empty_observation s), s) ∧
    StarboundAdapter.act s action (Transport.otherFailure msg) tObs =
      Except.error (AdapterError.runtimeError ("Bridge request failed: " ++ msg)) ∧
    (∃ res s2, StarboundAdapter.act s action Transport.connFailure tObs =
        Except.ok (res, s2) ∧ res.success = false ∧
        res.observation = some (s2.last_observation.getD
          (StarboundAdapter.empty_observation s2))) ∧
    StarboundAdapter.reset s (Transport.otherFailure msg) tObs =
      Except.error (AdapterError.runtimeError ("Bridge request failed: " ++ msg)) ∧
    StarboundAdapter.reset s Transport.connFailure tObs =
      StarboundAdapter.observe { s with step := 0, recent_events := [] } tObs := by
  refine ⟨rfl, ?_, ?_, ?_, rfl, rfl⟩
  · cases hobs : s.last_observation with
    | none => simp [StarboundAdapter.observe, pyRequest, hobs]
    | some obs => simp [StarboundAdapter.observe, pyRequest, hobs]
  · show StarboundAdapter.act s action (Transport.otherFailure msg) tObs =
      Except.error (AdapterError.runtimeError ("Bridge request failed: " ++ msg))
    simp only [StarboundAdapter.act]
    rw [if_neg (not_not_intro hname)]
    rfl
  · simp only [StarboundAdapter.act]
    rw [if_neg (not_not_intro hname)]
    exact ⟨_, _, rfl, rfl, rfl⟩

/-- Witness for C1 as amended at a fresh adapter and the "wait" action. -/
theorem C1_transport_failures_amended_witness :
    StarboundAdapter.observe mkStarboundAdapter
      (Transport.otherFailure "HTTPConnectionPool read timed out") =
      Except.error (AdapterError.runtimeError
        ("Bridge request failed: " ++ "HTTPConnectionPool read timed out")) ∧
    StarboundAdapter.act mkStarboundAdapter
      { name := "wait", parameters := [], reasoning := none }
      (Transport.otherFailure "HTTPConnectionPool read timed out")
      Transport.connFailure =
      Except.error (AdapterError.runtimeError
        ("Bridge request failed: " ++ "HTTPConnectionPool read timed out")) :=
  have h := C1_transport_failures_amended mkStarboundAdapter
    "HTTPConnectionPool read timed out"
    { name := "wait", parameters := [], reasoning := none }
    Transport.connFailure (by decide)
  ⟨h.1, h.2.2.1⟩

end AiVillage
